import Mathlib

/-!
Verification of the typed request-parameter resolution and validation
pipeline described by the specification of this repository, against the
endpoint declarations and endpoint bodies in `src/main.py`.

The endpoint bodies (dictionary construction, list slicing, the custom
validator `check_valid_id`, the enum `ModelName`, the pydantic models
`Item` and `Cookies`) are embedded directly from the source.  The binding
engine itself (value extraction, coercion, constraint checking, error
aggregation) is delegated by the source to the host framework and is not
present in the repository; those parts are modelled from the spec, and each
such definition carries a doc comment saying so.

Python `float` values are modelled as exact rationals (`ℚ`); the claims
under scrutiny only involve literals exactly representable in binary
floating point and single additions of caller-supplied values, which the
source passes through unchanged.  Python dictionaries are modelled as
association lists with insertion-order semantics (`dictUpdate` replaces
the value of an existing key in place and appends a fresh key at the end),
matching CPython's ordered-dict behaviour for `dict.update`.
-/

/-- Error kinds of the validation taxonomy in the spec (section 7). -/
inductive ErrKind where
  | missing
  | typeMismatch
  | outOfRange
  | lengthViolation
  | patternMismatch
  | enumViolation
  | extraFieldForbidden
  | customValidatorRejected
  deriving DecidableEq, Repr

/-- A per-field validation error: field path and error kind. -/
structure ValidationError where
  field : String
  kind : ErrKind
  deriving DecidableEq, Repr

/-- JSON-like response values produced by the endpoint bodies. -/
inductive Val where
  | str (s : String)
  | int (n : Int)
  | rat (q : ℚ)
  | bool (b : Bool)
  | null
  deriving DecidableEq, Repr

/-- Value of an unsigned decimal digit string. -/
def digitsVal (ds : List Char) : Nat :=
  ds.foldl (fun a c => a * 10 + (c.toNat - Char.toNat '0')) 0

/-- Modelled from the spec: integer coercion "int via numeric parse"
(section 4.2); the framework-side parse of a raw decimal string, with an
optional leading sign, is not part of the repository. -/
def parseInt (s : String) : Option Int :=
  let core (ds : List Char) : Option Int :=
    if !ds.isEmpty && ds.all Char.isDigit then some (digitsVal ds) else none
  match s.data with
  | [] => none
  | c :: cs =>
      if c = '-' then (core cs).map Int.neg
      else if c = '+' then core cs
      else core (c :: cs)

/-- Modelled from the spec: floating-point coercion "float via numeric
parse" (section 4.2), over exact rationals; accepts an optional sign,
an integer part and an optional fractional part. -/
def parseFloat (s : String) : Option ℚ :=
  let core (ds : List Char) : Option ℚ :=
    let intPart := ds.takeWhile Char.isDigit
    let rest := ds.dropWhile Char.isDigit
    match rest with
    | [] => if intPart.isEmpty then none else some (digitsVal intPart)
    | '.' :: frac =>
        if frac.all Char.isDigit && (!intPart.isEmpty || !frac.isEmpty) then
          some ((digitsVal intPart : ℚ) + (digitsVal frac : ℚ) / (10 : ℚ) ^ frac.length)
        else none
    | _ => none
  match s.data with
  | [] => none
  | c :: cs =>
      if c = '-' then (core cs).map Neg.neg
      else if c = '+' then core cs
      else core (c :: cs)

/-- ASCII lowercasing of a string, character by character. -/
def lowerAscii (s : String) : String :=
  String.mk (s.data.map Char.toLower)

/-- Modelled from the spec: boolean coercion via the fixed accepted-token
set {"true","1","false","0"}, case-insensitive (section 4.2); the
framework-side coercion is not part of the repository. -/
def coerce_bool (raw : String) : Option Bool :=
  let l := lowerAscii raw
  if l = "true" ∨ l = "1" then some true
  else if l = "false" ∨ l = "0" then some false
  else none

/-- Python `str.startswith` on one prefix, by character-list comparison. -/
def strStartsWith (s pre : String) : Bool :=
  pre.data.isPrefixOf s.data

/-- Key-presence test on an association-list dictionary. -/
def hasKey (d : List (String × Val)) (k : String) : Bool :=
  d.any (fun kv => kv.1 = k)

/-- Lookup of the value stored under a key. -/
def lookupVal (d : List (String × Val)) (k : String) : Option Val :=
  (d.find? (fun kv => kv.1 = k)).map (·.2)

/-- Python `dict.update` with a single key: replaces the value of an
existing key in place, appends a fresh key at the end. -/
def dictUpdate (d : List (String × Val)) (k : String) (v : Val) : List (String × Val) :=
  if hasKey d k then d.map (fun kv => if kv.1 = k then (k, v) else kv)
  else d ++ [(k, v)]

/-- The in-memory item table of `src/main.py` line 20. -/
def fake_items_db : List (List (String × Val)) :=
  [[("item_name", .str "Foo")], [("item_name", .str "Bar")], [("item_name", .str "Baz")]]

/-- Normalisation of one Python slice bound for a list of length `n`:
a negative index counts from the end, and both directions clamp into
`[0, n]`. -/
def sliceNorm (n : Nat) (i : Int) : Nat :=
  if i < 0 then ((n : Int) + i).toNat else min i.toNat n

/-- Python list slicing `l[a:b]` with int bounds: the result is the
elements with positions in `[a', b')` after normalising both bounds. -/
def pySlice {α : Type} (l : List α) (a b : Int) : List α :=
  (l.take (sliceNorm l.length b)).drop (sliceNorm l.length a)

/-- Endpoint body of `read_item2` (`src/main.py` lines 62-64):
returns `fake_items_db[skip : skip + limit]`. -/
def read_item2 (skip limit : Int) : List (List (String × Val)) :=
  pySlice fake_items_db skip (skip + limit)

/-- Modelled from the spec: binding of `read_item`'s single int-typed path
parameter `item_id` (declaration at `src/main.py` lines 29-31); parse
failure is a type-mismatch error for that field. -/
def bind_read_item (raw_item_id : String) : Except (List ValidationError) Int :=
  match parseInt raw_item_id with
  | none => .error [⟨"item_id", .typeMismatch⟩]
  | some n => .ok n

/-- Endpoint body of `read_item` (`src/main.py` lines 29-31):
returns `{"item_id": item_id}`. -/
def read_item (item_id : Int) : List (String × Val) :=
  [("item_id", .int item_id)]

/-- Modelled from the spec: coercion and constraint checking of
`read_item5`'s path parameter `item_id : int` with `ge=1, le=1000`
(`src/main.py` lines 169-173); numeric parse, then numeric bounds. -/
def field_item_id5 (raw : String) : Except ValidationError Int :=
  match parseInt raw with
  | none => .error ⟨"item_id", .typeMismatch⟩
  | some n => if 1 ≤ n ∧ n ≤ 1000 then .ok n else .error ⟨"item_id", .outOfRange⟩

/-- Modelled from the spec: coercion and constraint checking of
`read_item5`'s query parameter `size : float` with `gt=0, lt=10.5`
(`src/main.py` line 174); numeric parse, then numeric bounds. -/
def field_size5 (raw : String) : Except ValidationError ℚ :=
  match parseFloat raw with
  | none => .error ⟨"size", .typeMismatch⟩
  | some x => if 0 < x ∧ x < 10.5 then .ok x else .error ⟨"size", .outOfRange⟩

/-- The single error of a failed field, nothing for a successful one. -/
def errsOf {α : Type} : Except ValidationError α → List ValidationError
  | .error e => [e]
  | .ok _ => []

/-- Arguments bound for a successful `read_item5` request. -/
structure Item5Args where
  item_id : Int
  size : ℚ
  q : Option String
  deriving DecidableEq, Repr

/-- Modelled from the spec: the result assembler for `read_item5`
(section 4.3) — every field is validated independently, and if any field
fails, all typed values are discarded and the full aggregated error list
is returned, in declared parameter order. -/
def bind_read_item5 (raw_item_id raw_size : String) (raw_q : Option String) :
    Except (List ValidationError) Item5Args :=
  match field_item_id5 raw_item_id, field_size5 raw_size with
  | .ok n, .ok x => .ok ⟨n, x, raw_q⟩
  | r1, r2 => .error (errsOf r1 ++ errsOf r2)

/-- The declared field names of the `Cookies` model
(`src/main.py` lines 382-387). -/
def cookiesDeclaredFields : List String :=
  ["session_id", "fatebook_tracker", "googall_tracker"]

/-- The `Cookies` pydantic model (`src/main.py` lines 382-387):
`session_id` required, the two trackers optional, extra fields forbidden
by `model_config = {"extra": "forbid"}`. -/
structure Cookies where
  session_id : String
  fatebook_tracker : Option String
  googall_tracker : Option String
  deriving DecidableEq, Repr

/-- Lookup of a raw cookie value by key. -/
def cookieLookup (raw : List (String × String)) (k : String) : Option String :=
  (raw.find? (fun kv => kv.1 = k)).map (·.2)

/-- Modelled from the spec: binding of `read_items9`'s object-typed cookie
parameter (`src/main.py` lines 389-393) under the extra-field policy
"forbid" — every undeclared cookie key yields an extra-field-forbidden
error naming that key, a missing required `session_id` yields a missing
error, and on success the declared fields are filled from the raw cookies. -/
def bind_read_items9 (raw : List (String × String)) : Except (List ValidationError) Cookies :=
  match cookieLookup raw "session_id",
      (raw.filter (fun kv => !cookiesDeclaredFields.contains kv.1)).map
        (fun kv => ({ field := kv.1, kind := .extraFieldForbidden } : ValidationError)) with
  | none, extraErrs => .error (extraErrs ++ [⟨"session_id", .missing⟩])
  | some sid, [] =>
      .ok ⟨sid, cookieLookup raw "fatebook_tracker", cookieLookup raw "googall_tracker"⟩
  | some _, e :: es => .error (e :: es)

/-- The `ModelName` enum (`src/main.py` lines 13-16). -/
inductive ModelName where
  | alexnet
  | resnet
  | lenet
  deriving DecidableEq, Repr

/-- The string value of each `ModelName` member. -/
def ModelName.toString : ModelName → String
  | .alexnet => "alexnet"
  | .resnet => "resnet"
  | .lenet => "lenet"

/-- Modelled from the spec: enum-membership coercion of the raw path
segment against the declared member set of `ModelName` (section 4.2). -/
def ModelName.fromString (s : String) : Option ModelName :=
  if s = "alexnet" then some .alexnet
  else if s = "resnet" then some .resnet
  else if s = "lenet" then some .lenet
  else none

/-- Modelled from the spec: binding of `get_model`'s enum-typed path
parameter `model_name` (`src/main.py` lines 43-44); a value outside the
declared set is an enum-membership error, never an exception. -/
def bind_get_model (raw : String) : Except (List ValidationError) ModelName :=
  match ModelName.fromString raw with
  | none => .error [⟨"model_name", .enumViolation⟩]
  | some m => .ok m

/-- Endpoint body of `get_model` (`src/main.py` lines 44-51). -/
def get_model (model_name : ModelName) : List (String × Val) :=
  if model_name = .alexnet then
    [("model_name", .str model_name.toString), ("message", .str "Deep Learning FTW!")]
  else if model_name = .lenet then
    [("model_name", .str model_name.toString), ("message", .str "LeCNN all the images")]
  else
    [("model_name", .str model_name.toString), ("message", .str "Have some residuals")]

/-- The custom validator `check_valid_id` (`src/main.py` lines 142-145),
with the source's exception represented as a tagged error result, as the
spec's design notes direct for exception-based custom validators. -/
def check_valid_id (id : String) : Except String String :=
  if !(strStartsWith id "isbn-" || strStartsWith id "imdb-") then
    .error "Invalid ID format, it must start withc \"isbn-\" or \"imdb-\""
  else .ok id

/-- Modelled from the spec: validation of `read_items4`'s list-valued
query parameter `q` (alias `item-query`, `min_length=2`, default
`["foo", "bar"]`, `src/main.py` lines 150-162). -/
def validate_q4 (raw_q : Option (List String)) : Except ValidationError (Option (List String)) :=
  match raw_q with
  | none => .ok (some ["foo", "bar"])
  | some l => if 2 ≤ l.length then .ok (some l) else .error ⟨"q", .lengthViolation⟩

/-- Modelled from the spec: validation of `read_items4`'s optional `id`
parameter (`src/main.py` line 163) — the custom validator's failure is
converted into a custom-validator-rejected entry for field `id`, and is
never propagated as an exception. -/
def validate_id4 (raw_id : Option String) : Except ValidationError (Option String) :=
  match raw_id with
  | none => .ok none
  | some s =>
      match check_valid_id s with
      | .error _ => .error ⟨"id", .customValidatorRejected⟩
      | .ok v => .ok (some v)

/-- Arguments bound for a successful `read_items4` request. -/
structure Items4Args where
  q : Option (List String)
  id : Option String
  deriving DecidableEq, Repr

/-- Modelled from the spec: the result assembler for `read_items4`
(section 4.3), aggregating the outcomes of both fields. -/
def bind_read_items4 (raw_q : Option (List String)) (raw_id : Option String) :
    Except (List ValidationError) Items4Args :=
  match validate_q4 raw_q, validate_id4 raw_id with
  | .ok q, .ok id => .ok ⟨q, id⟩
  | r1, r2 => .error (errsOf r1 ++ errsOf r2)

/-- Arguments bound for a successful `read_item3` request. -/
structure Item3Args where
  item_id : String
  q : Option String
  short : Bool
  deriving DecidableEq, Repr

/-- Modelled from the spec: binding for `read_item3` (`src/main.py`
lines 68-69) — `item_id` is a string pass-through, `q` is an optional
string pass-through defaulting to absent, and `short` defaults to false
and is otherwise coerced by the fixed boolean token set. -/
def bind_read_item3 (raw_item_id : String) (raw_q raw_short : Option String) :
    Except (List ValidationError) Item3Args :=
  let shortField : Except ValidationError Bool :=
    match raw_short with
    | none => .ok false
    | some s =>
        match coerce_bool s with
        | none => .error ⟨"short", .typeMismatch⟩
        | some b => .ok b
  match shortField with
  | .ok b => .ok ⟨raw_item_id, raw_q, b⟩
  | .error e => .error [e]

/-- Endpoint body of `read_item3` (`src/main.py` lines 69-77): the key
`"q"` is added only when `q` is truthy (non-None and non-empty), and the
description only when `short` is falsy. -/
def read_item3 (item_id : String) (q : Option String) (short : Bool) : List (String × Val) :=
  let item := [("item_id", Val.str item_id)]
  let item :=
    match q with
    | some s => if s ≠ "" then dictUpdate item "q" (.str s) else item
    | none => item
  let item :=
    if !short then
      dictUpdate item "description" (.str "This is an amazing item that has a long description")
    else item
  item

/-- The whole pipeline for `read_item3`: binding followed by the endpoint
body on success. -/
def handle_read_item3 (raw_item_id : String) (raw_q raw_short : Option String) :
    Except (List ValidationError) (List (String × Val)) :=
  (bind_read_item3 raw_item_id raw_q raw_short).map
    (fun a => read_item3 a.item_id a.q a.short)

/-- The `Item` pydantic model (`src/main.py` lines 94-98): `name` and
`price` required, `description` and `tax` optional. -/
structure Item where
  name : String
  description : Option String
  price : ℚ
  tax : Option ℚ
  deriving DecidableEq, Repr

/-- `Item.model_dump` (`src/main.py` line 129): the model's own fields as
a dictionary, `None` serialising to null. -/
def Item.model_dump (i : Item) : List (String × Val) :=
  [("name", .str i.name),
   ("description", match i.description with | some s => .str s | none => .null),
   ("price", .rat i.price),
   ("tax", match i.tax with | some t => .rat t | none => .null)]

/-- Endpoint body of `create_item` (`src/main.py` lines 121-136):
starts from `item.model_dump()`, adds `price_with_tax = price + tax` when
`tax` is not None, adds `item_id`, and adds `q` when `q` is truthy. -/
def create_item (item_id : Int) (item : Item) (q : Option String) : List (String × Val) :=
  let item_dict := item.model_dump
  let item_dict :=
    match item.tax with
    | some t => dictUpdate item_dict "price_with_tax" (.rat (item.price + t))
    | none => item_dict
  let item_dict := dictUpdate item_dict "item_id" (.int item_id)
  let item_dict :=
    match q with
    | some s => if s ≠ "" then dictUpdate item_dict "q" (.str s) else item_dict
    | none => item_dict
  item_dict

example : parseInt "5" = some 5 := by decide
example : parseInt "abc" = none := by decide
example : parseInt "-42" = some (-42) := by decide
example : parseFloat "x" = none := by decide
example : coerce_bool "TRUE" = some true := by decide
example : coerce_bool "0" = some false := by decide
example : coerce_bool "yes" = none := by decide
example : read_item2 (-2) 10 = [[("item_name", .str "Bar")], [("item_name", .str "Baz")]] := by decide
example : read_item2 5 2 = [] := by decide
example : read_item2 0 2 = [[("item_name", .str "Foo")], [("item_name", .str "Bar")]] := by decide


/-- Every error produced for the `item_id` field of `read_item5` carries
the field path "item_id". -/
theorem field_item_id5_error_field (raw : String) (e : ValidationError)
    (h : field_item_id5 raw = .error e) : e.field = "item_id" := by
  unfold field_item_id5 at h
  split at h
  · injection h with h'
    rw [← h']
  · split at h
    · exact Except.noConfusion h
    · injection h with h'
      rw [← h']

/-- Every error produced for the `size` field of `read_item5` carries the
field path "size". -/
theorem field_size5_error_field (raw : String) (e : ValidationError)
    (h : field_size5 raw = .error e) : e.field = "size" := by
  unfold field_size5 at h
  split at h
  · injection h with h'
    rw [← h']
  · split at h
    · exact Except.noConfusion h
    · injection h with h'
      rw [← h']

/-- Claim C1: binding of `read_item5` is all-or-nothing with full error
aggregation — when both `item_id` (ge=1, le=1000) and `size` (gt=0,
lt=10.5) violate their constraints, the result is a rejection whose error
list names both failing fields, and no bound argument set is produced. -/
theorem read_item5_error_aggregation (raw_item_id raw_size : String) (raw_q : Option String)
    (e1 e2 : ValidationError)
    (h1 : field_item_id5 raw_item_id = .error e1)
    (h2 : field_size5 raw_size = .error e2) :
    bind_read_item5 raw_item_id raw_size raw_q = .error [e1, e2]
    ∧ e1.field = "item_id" ∧ e2.field = "size" := by
  refine ⟨?_, field_item_id5_error_field _ _ h1, field_size5_error_field _ _ h2⟩
  unfold bind_read_item5
  rw [h1, h2]
  exact rfl

/-- Witness for claim C1: the concrete request with path parameter "0"
(out of range) and query parameter "abc" (not a float) is rejected with
both fields named, in declared order. -/
theorem read_item5_error_aggregation_witness :
    bind_read_item5 "0" "abc" none =
      .error [⟨"item_id", ErrKind.outOfRange⟩, ⟨"size", ErrKind.typeMismatch⟩]
    ∧ (⟨"item_id", ErrKind.outOfRange⟩ : ValidationError).field = "item_id"
    ∧ (⟨"size", ErrKind.typeMismatch⟩ : ValidationError).field = "size" :=
  read_item5_error_aggregation "0" "abc" none
    ⟨"item_id", ErrKind.outOfRange⟩ ⟨"size", ErrKind.typeMismatch⟩ rfl rfl

/-- Claim C2: integer path-parameter coercion for `read_item` — the raw
path segment "5" binds to the integer 5 and the response is
`{"item_id": 5}` with an integer value, while "abc" is rejected with a
type-mismatch error for field `item_id`. -/
theorem read_item_int_coercion :
    (bind_read_item "5").map read_item = .ok [("item_id", Val.int 5)]
    ∧ bind_read_item "abc" = .error [⟨"item_id", ErrKind.typeMismatch⟩] :=
  ⟨rfl, rfl⟩

/-- Claim C3: boolean coercion for the `short` query parameter of
`read_item3` accepts exactly the fixed token set {"true","1","false","0"}
case-insensitively — "true"/"1" yield true, "false"/"0" yield false,
binding succeeds exactly on those tokens, and any other string is a
type-mismatch error for field `short`. -/
theorem read_item3_bool_token_set (item_id : String) (q : Option String) (s : String) :
    (coerce_bool s = some true ↔ (lowerAscii s = "true" ∨ lowerAscii s = "1"))
    ∧ (coerce_bool s = some false ↔ (lowerAscii s = "false" ∨ lowerAscii s = "0"))
    ∧ ((∃ a, bind_read_item3 item_id q (some s) = .ok a) ↔
        lowerAscii s ∈ (["true", "1", "false", "0"] : List String))
    ∧ (lowerAscii s ∉ (["true", "1", "false", "0"] : List String) →
        bind_read_item3 item_id q (some s) = .error [⟨"short", ErrKind.typeMismatch⟩]) := by
  unfold bind_read_item3 coerce_bool
  by_cases h1 : lowerAscii s = "true" <;> by_cases h2 : lowerAscii s = "1" <;>
    by_cases h3 : lowerAscii s = "false" <;> by_cases h4 : lowerAscii s = "0" <;>
    simp_all

/-- Witness for claim C3: the token "maybe" is outside the accepted set,
so binding `read_item3` with `short = "maybe"` is a type-mismatch
rejection for the field `short`. -/
theorem read_item3_bool_token_set_witness :
    bind_read_item3 "foo" none (some "maybe") = .error [⟨"short", ErrKind.typeMismatch⟩] :=
  (read_item3_bool_token_set "foo" none "maybe").2.2.2 (by decide)

/-- Claim C5: the enum-typed path parameter `model_name` of `get_model`
is rejected with an enum-membership error for every string outside
{"alexnet", "resnet", "lenet"}, and for each member value binding
succeeds and the endpoint returns that model name in its result. -/
theorem get_model_enum_membership :
    (∀ s : String, s ∉ (["alexnet", "resnet", "lenet"] : List String) →
        bind_get_model s = .error [⟨"model_name", ErrKind.enumViolation⟩])
    ∧ (∀ m : ModelName, bind_get_model (ModelName.toString m) = .ok m
        ∧ lookupVal (get_model m) "model_name" = some (.str (ModelName.toString m))) := by
  constructor
  · intro s hs
    simp only [List.mem_cons, List.not_mem_nil, or_false, not_or] at hs
    obtain ⟨h1, h2, h3⟩ := hs
    simp [bind_get_model, ModelName.fromString, h1, h2, h3]
  · intro m
    cases m <;> exact ⟨rfl, rfl⟩

/-- Witness for claim C5: the out-of-set value "vgg" is rejected with an
enum-membership error, and the member value "resnet" binds and is echoed
in the response. -/
theorem get_model_enum_membership_witness :
    bind_get_model "vgg" = .error [⟨"model_name", ErrKind.enumViolation⟩]
    ∧ (bind_get_model (ModelName.toString .resnet) = .ok .resnet
        ∧ lookupVal (get_model .resnet) "model_name" =
            some (.str (ModelName.toString .resnet))) :=
  ⟨get_model_enum_membership.1 "vgg" (by decide),
    get_model_enum_membership.2 .resnet⟩

/-- Claim C7: binding is deterministic — the whole `read_item3` pipeline
is a pure function of the raw request, so performing the same binding
computation twice on identical raw inputs yields identical results, both
on the success path and on the rejection path. -/
theorem read_item3_binding_deterministic (raw_item_id : String) (raw_q raw_short : Option String) :
    handle_read_item3 raw_item_id raw_q raw_short
      = handle_read_item3 raw_item_id raw_q raw_short := rfl

/-- The failure of the custom validator on an `id` value with neither
accepted prefix is converted into a custom-validator-rejected entry for
field `id`. -/
theorem validate_id4_rejects (s : String)
    (h1 : strStartsWith s "isbn-" = false) (h2 : strStartsWith s "imdb-" = false) :
    validate_id4 (some s) = .error ⟨"id", ErrKind.customValidatorRejected⟩ := by
  simp only [validate_id4, check_valid_id, h1, h2]
  exact rfl

/-- Claim C6: the exception raised by the custom validator
`check_valid_id` never leaks past the binding boundary — for every
request to `read_items4` whose `id` does not start with "isbn-" or
"imdb-", and whatever the `q` parameter is, binding returns an aggregated
error list containing a custom-validator-rejected entry for field `id`
(the binding function is total, so no exception propagates). -/
theorem read_items4_validator_contained (raw_q : Option (List String)) (s : String)
    (h1 : strStartsWith s "isbn-" = false) (h2 : strStartsWith s "imdb-" = false) :
    ∃ es, bind_read_items4 raw_q (some s) = .error es
      ∧ (⟨"id", ErrKind.customValidatorRejected⟩ : ValidationError) ∈ es := by
  have hid := validate_id4_rejects s h1 h2
  unfold bind_read_items4
  rw [hid]
  cases hq : validate_q4 raw_q
  · exact ⟨_, rfl, by simp [errsOf]⟩
  · exact ⟨_, rfl, by simp [errsOf]⟩

/-- Witness for claim C6: the concrete `id` value "abc" (no accepted
prefix) with `q` absent is rejected with the validator's error converted
into the aggregated list. -/
theorem read_items4_validator_contained_witness :
    ∃ es, bind_read_items4 none (some "abc") = .error es
      ∧ (⟨"id", ErrKind.customValidatorRejected⟩ : ValidationError) ∈ es :=
  read_items4_validator_contained none "abc" (by decide) (by decide)

/-- Claim C4: the extra-field-forbid policy on the object-typed cookie
parameter of `read_items9` — any raw cookie key outside the declared
fields of the `Cookies` model causes rejection with an
extra-field-forbidden error naming that key, while a request supplying
only declared cookie keys with `session_id` present binds successfully. -/
theorem read_items9_extra_forbid :
    (∀ (raw : List (String × String)) (k v : String), (k, v) ∈ raw →
        k ∉ cookiesDeclaredFields →
        ∃ es, bind_read_items9 raw = .error es
          ∧ (⟨k, ErrKind.extraFieldForbidden⟩ : ValidationError) ∈ es)
    ∧ (∀ (raw : List (String × String)) (sid : String),
        cookieLookup raw "session_id" = some sid →
        (∀ kv ∈ raw, kv.1 ∈ cookiesDeclaredFields) →
        bind_read_items9 raw =
          .ok ⟨sid, cookieLookup raw "fatebook_tracker", cookieLookup raw "googall_tracker"⟩) := by
  constructor
  · intro raw k v hmem hk
    have hmemE : (⟨k, ErrKind.extraFieldForbidden⟩ : ValidationError) ∈
        (raw.filter (fun kv => !cookiesDeclaredFields.contains kv.1)).map
          (fun kv => ({ field := kv.1, kind := .extraFieldForbidden } : ValidationError)) := by
      refine List.mem_map.mpr ⟨(k, v), ?_, rfl⟩
      refine List.mem_filter.mpr ⟨hmem, ?_⟩
      simp [hk]
    unfold bind_read_items9
    cases hxs : (raw.filter (fun kv => !cookiesDeclaredFields.contains kv.1)).map
        (fun kv => ({ field := kv.1, kind := .extraFieldForbidden } : ValidationError)) with
    | nil =>
        rw [hxs] at hmemE
        exact absurd hmemE (List.not_mem_nil _)
    | cons e es =>
        rw [hxs] at hmemE
        cases hsid : cookieLookup raw "session_id"
        · exact ⟨_, rfl, List.mem_append_left _ hmemE⟩
        · exact ⟨_, rfl, hmemE⟩
  · intro raw sid hsid hall
    have hfilter : raw.filter (fun kv => !cookiesDeclaredFields.contains kv.1) = [] := by
      rw [List.filter_eq_nil_iff]
      intro a ha
      simp [hall a ha]
    unfold bind_read_items9
    rw [hfilter, List.map_nil, hsid]

/-- Witness for claim C4: a request carrying the undeclared cookie key
"theme" is rejected with an extra-field-forbidden error naming "theme",
and a request with only `session_id` binds successfully. -/
theorem read_items9_extra_forbid_witness :
    (∃ es, bind_read_items9 [("session_id", "x"), ("theme", "dark")] = .error es
      ∧ (⟨"theme", ErrKind.extraFieldForbidden⟩ : ValidationError) ∈ es)
    ∧ bind_read_items9 [("session_id", "abc")] =
        .ok ⟨"abc", cookieLookup [("session_id", "abc")] "fatebook_tracker",
          cookieLookup [("session_id", "abc")] "googall_tracker"⟩ :=
  ⟨read_items9_extra_forbid.1 [("session_id", "x"), ("theme", "dark")] "theme" "dark"
      (by decide) (by decide),
    read_items9_extra_forbid.2 [("session_id", "abc")] "abc" rfl (by decide)⟩

/-- When the lower slice bound is at or past the end of the list, the
Python slice is empty. -/
theorem pySlice_start_past_end {α : Type} (l : List α) (a b : Int)
    (h : (l.length : Int) ≤ a) : pySlice l a b = [] := by
  have ha : ¬ a < 0 := by omega
  have h2 : sliceNorm l.length a = l.length := by
    unfold sliceNorm
    rw [if_neg ha]
    omega
  unfold pySlice
  rw [h2]
  apply List.drop_eq_nil_of_le
  rw [List.length_take]
  exact min_le_right _ _

/-- Claim C8: `read_item2` is total over all integer `skip` and `limit`
values and returns the Python slice `fake_items_db[skip : skip + limit]`;
any `skip` at or above 3 (the length of `fake_items_db`) yields the empty
list, and negative `skip` values select from the end of the list under
Python's negative-index slice semantics. -/
theorem read_item2_total_slice :
    (∀ skip limit : Int, read_item2 skip limit = pySlice fake_items_db skip (skip + limit))
    ∧ (∀ skip limit : Int, 3 ≤ skip → read_item2 skip limit = [])
    ∧ read_item2 (-2) 10 = [[("item_name", Val.str "Bar")], [("item_name", Val.str "Baz")]]
    ∧ read_item2 (-1) 10 = [[("item_name", Val.str "Baz")]] := by
  refine ⟨fun skip limit => rfl, fun skip limit h => ?_, by decide, by decide⟩
  exact pySlice_start_past_end fake_items_db skip (skip + limit) (by exact_mod_cast h)

/-- Witness for claim C8: the out-of-range request `skip = 5, limit = 2`
yields the empty list rather than an error. -/
theorem read_item2_total_slice_witness :
    read_item2 5 2 = [] :=
  read_item2_total_slice.2.1 5 2 (by decide)

/-- Claim C9: `read_item3` treats an empty-string `q` like an absent
`q` — the key "q" appears in the response iff `q` is a non-None non-empty
string, supplying `q = ""` produces exactly the same response as omitting
`q`, and the key "description" appears iff `short` is false. -/
theorem read_item3_empty_q_like_absent (item_id : String) (q : Option String) (short : Bool) :
    (hasKey (read_item3 item_id q short) "q" = true ↔ ∃ s, q = some s ∧ s ≠ "")
    ∧ read_item3 item_id (some "") short = read_item3 item_id none short
    ∧ (hasKey (read_item3 item_id q short) "description" = true ↔ short = false) := by
  cases q with
  | none => cases short <;> simp [read_item3, dictUpdate, hasKey]
  | some s =>
      by_cases hs : s = "" <;> cases short <;>
        simp_all [read_item3, dictUpdate, hasKey]

/-- Claim C10: `create_item` computes `price_with_tax` exactly when `tax`
is supplied — the response contains the key "price_with_tax" iff
`item.tax` is not None, its value then equals `item.price + item.tax`,
and the item's own fields and `item_id` are returned unchanged. -/
theorem create_item_price_with_tax (item_id : Int) (item : Item) (q : Option String) :
    (hasKey (create_item item_id item q) "price_with_tax" = true ↔ item.tax ≠ none)
    ∧ (∀ t : ℚ, item.tax = some t →
        lookupVal (create_item item_id item q) "price_with_tax" = some (.rat (item.price + t)))
    ∧ lookupVal (create_item item_id item q) "name" = some (.str item.name)
    ∧ lookupVal (create_item item_id item q) "description" =
        some (match item.description with | some s => Val.str s | none => Val.null)
    ∧ lookupVal (create_item item_id item q) "price" = some (.rat item.price)
    ∧ lookupVal (create_item item_id item q) "tax" =
        some (match item.tax with | some t => Val.rat t | none => Val.null)
    ∧ lookupVal (create_item item_id item q) "item_id" = some (.int item_id) := by
  obtain ⟨n, d, p, tx⟩ := item
  rcases q with _ | s
  · cases tx <;> cases d <;>
      simp [create_item, Item.model_dump, dictUpdate, hasKey, lookupVal]
  · by_cases hs : s = "" <;> cases tx <;> cases d <;>
      simp_all [create_item, Item.model_dump, dictUpdate, hasKey, lookupVal]

/-- Witness for claim C10: for the concrete item with price 5 and tax 2
the response holds `price_with_tax` with value `5 + 2`, and the fields
are echoed unchanged. -/
theorem create_item_price_with_tax_witness :
    lookupVal (create_item 1 ⟨"Foo", none, 5, some 2⟩ none) "price_with_tax" =
      some (.rat ((5 : ℚ) + 2))
    ∧ lookupVal (create_item 1 ⟨"Foo", none, 5, some 2⟩ none) "name" = some (.str "Foo") :=
  ⟨(create_item_price_with_tax 1 ⟨"Foo", none, 5, some 2⟩ none).2.1 2 rfl,
    (create_item_price_with_tax 1 ⟨"Foo", none, 5, some 2⟩ none).2.2.1⟩
